import Mathlib

/-!
Shallow embedding of the pycanopen CANopen binding
(src/python/pycanopen/CANopen.py), together with a model, taken from
the written specification, of the native libcanopen frame codec that
the binding calls (the codec itself is repository C code that is not
part of the Python source tree).

Embedding conventions: Python 2 byte strings are `List Char` (one
char per byte); machine integers are `Nat`/`Int`, with an explicit
`% 65536` where the source converts through `ctypes.c_uint16` (ctypes
masks silently); fallible Python code returns `Except PyExc α`, where
`PyExc` enumerates the exception classes the module can raise.  Each
wrapper method is a function of the values the native library produces
(return code, the thread errno, out-parameter buffer contents), since
the native calls are foreign to the Python source.  Where a method
also performs a native call whose mere occurrence matters, the model
returns a `Bool` flag recording whether that call was made.
-/

/-- The exception classes defined by the module (message payloads
elided, they are plain format strings), plus the built-in Python
exceptions that the module's own code can raise. -/
inductive PyExc where
  | CANframeReadException
  | CANframeWriteException
  | CANSocketNotConnectedException
  | CANopenFrameParseException
  | CANframeParseException
  | CANopenSDOUploadException
  | CANopenSDODownloadException
  | CANNothingToReadException
  | AttributeError (attr : String)
  | NameError (var : String)
  | ValueError
  | IndexError
deriving DecidableEq, Repr

/-- The ctypes `CANFrame` structure: `can_id : c_uint32`,
`can_dlc : c_uint8`, 8 data bytes (the 3 `align` padding bytes carry
no information and are omitted). -/
structure CANFrame where
  can_id : Nat
  can_dlc : Nat
  data : List Nat
deriving DecidableEq, Repr

/-- Transfer types of a CANopen SDO frame, as enumerated in the
specification's data model. -/
inductive TransferType where
  | Expedited
  | SegmentDownload
  | SegmentUpload
  | BlockDownload
  | BlockUpload
  | Abort
deriving DecidableEq, Repr

/-- The ctypes `CANopenFrame` structure: `rtr`, `function_code`, the
transfer type (the struct's `type` byte, here the spec's enum), node
`id`, 8 data bytes and `data_len`. -/
structure CANopenFrame where
  rtr : Nat
  function_code : Nat
  ttype : TransferType
  id : Nat
  data : List Nat
  data_len : Nat
deriving DecidableEq, Repr

/-- Failures of the native frame codec, as named by the specification. -/
inductive ParseError where
  | MalformedLength
  | UnknownCommandSpecifier
deriving DecidableEq, Repr

/-- Modelled from the spec: classification of an SDO command specifier
(first data byte).  Returns the transfer type and the number of valid
payload bytes indicated by the specifier's size field, or `none` for a
command byte that matches no recognized SDO command
(`UnknownCommandSpecifier`).  Bit layout follows the CiA 301 layout the
spec cites: bits 7-5 select the command, an expedited initiate carries
`e`/`s` flags (bits 1/0) and a bytes-unused count `n` (bits 3-2, valid
payload `4 - n`), a segment carries a bytes-unused count in bits 3-1
(valid payload `7 - n`), `0x80` is the abort specifier. -/
def classifyCS (cs : Nat) : Option (TransferType × Nat) :=
  if cs = 128 then some (TransferType.Abort, 7)
  else if cs / 32 = 0 then some (TransferType.SegmentDownload, 7 - cs / 2 % 8)
  else if cs / 32 = 1 ∧ cs / 2 % 2 = 1 then
    some (TransferType.Expedited, if cs % 2 = 1 then 4 - cs / 4 % 4 else 4)
  else if cs / 32 = 3 then some (TransferType.SegmentUpload, 7 - cs / 2 % 8)
  else if cs / 32 = 5 then some (TransferType.BlockUpload, 7)
  else if cs / 32 = 6 then some (TransferType.BlockDownload, 7)
  else none

/-- Modelled from the spec: index of the first payload byte for each
transfer type.  An expedited initiate keeps its payload in bytes 4-7
(bytes 1-3 are index/subindex); all other recognized frames use
bytes 1-7. -/
def payloadStart : TransferType → Nat
  | TransferType.Expedited => 4
  | _ => 1

/-- Modelled from the spec: the native `canopen_frame_parse` (the Frame
Codec's `decode`).  Rejects a frame whose `dlc` is not the fixed
encapsulation length 8 with `MalformedLength`; otherwise splits the
arbitration id into the RTR flag (bit 30), a 4-bit function code and a
7-bit node id, classifies the command specifier (unknown specifier is
rejected), copies the 8 data bytes, and records the valid payload byte
count as `data_len`. -/
def canopen_frame_parse (cf : CANFrame) : Except ParseError CANopenFrame :=
  if cf.can_dlc ≠ 8 then Except.error ParseError.MalformedLength
  else
    match classifyCS (cf.data.headD 0) with
    | none => Except.error ParseError.UnknownCommandSpecifier
    | some (tt, len) =>
        Except.ok
          ⟨cf.can_id / 2 ^ 30 % 2, cf.can_id / 128 % 16, tt,
           cf.can_id % 128, cf.data, len⟩

/-- Modelled from the spec: the native frame encoder (the Frame Codec's
`encode`), inverse of `canopen_frame_parse`.  Rebuilds the arbitration
id from RTR flag, function code and node id, always emits the fixed
encapsulation `dlc = 8`, and zero-pads the data bytes past the valid
payload (the CANopen padding convention). -/
def canopen_frame_pack (f : CANopenFrame) : CANFrame :=
  ⟨f.rtr * 2 ^ 30 + f.function_code * 128 + f.id, 8,
   f.data.take (payloadStart f.ttype + f.data_len) ++
     List.replicate (8 - (payloadStart f.ttype + f.data_len)) 0⟩

/-- A valid CANopen frame per the spec's data model: RTR is a flag, the
function code fits 4 bits, the node id is in `1..=127`, the frame holds
its 8 data bytes, the command specifier (byte 0) is recognized and
consistent with the stored transfer type and payload length, and the
bytes past the valid payload are the zero padding the encoder emits. -/
def validCANopenFrame (f : CANopenFrame) : Prop :=
  f.rtr < 2 ∧ f.function_code < 16 ∧ 1 ≤ f.id ∧ f.id ≤ 127 ∧
  f.data.length = 8 ∧
  classifyCS (f.data.headD 0) = some (f.ttype, f.data_len) ∧
  f.data = f.data.take (payloadStart f.ttype + f.data_len) ++
    List.replicate (8 - (payloadStart f.ttype + f.data_len)) 0

instance (f : CANopenFrame) : Decidable (validCANopenFrame f) := by
  unfold validCANopenFrame
  infer_instance

/-- Linux value of `errno.EAGAIN` (the module loads `libc.so.6`). -/
def EAGAIN : Int := 11

/-- Linux value of `errno.EWOULDBLOCK`; on Linux it equals `EAGAIN`. -/
def EWOULDBLOCK : Int := 11

/-- Python truthiness of the stored socket handle `self.sock`: an
integer file descriptor is truthy when nonzero, `None` is falsy. -/
def truthy : Option Int → Bool
  | none => false
  | some v => v != 0

namespace CANopen

/-- `CANopen.close`: if `self.sock` is truthy, call the native
`can_socket_close` and set `self.sock = None`; otherwise do nothing.
Returns the new `self.sock` and whether the native close was called. -/
def close (sock : Option Int) : Option Int × Bool :=
  if truthy sock then (none, true) else (sock, false)

/-- `CANopen.read_can_frame`: with a truthy socket, perform the native
16-byte `read`; a full 16-byte result returns the frame, otherwise
errno `EAGAIN`/`EWOULDBLOCK` raises `CANNothingToReadException` and any
other errno raises `CANframeReadException`.  A falsy socket raises
`CANSocketNotConnectedException` with no native read.  `readRet` and
`errnoV` are the native read's return value and the thread errno, `fr`
the frame the read stored; the `Bool` records whether the native read
was performed. -/
def read_can_frame (sock : Option Int) (readRet errnoV : Int)
    (fr : CANFrame) : Except PyExc CANFrame × Bool :=
  if truthy sock then
    if readRet = 16 then (Except.ok fr, true)
    else if errnoV = EAGAIN ∨ errnoV = EWOULDBLOCK then
      (Except.error PyExc.CANNothingToReadException, true)
    else (Except.error PyExc.CANframeReadException, true)
  else (Except.error PyExc.CANSocketNotConnectedException, false)

/-- `CANopen.parse_can_frame`: call the native `canopen_frame_parse`;
a zero return yields the parsed CANopen frame, a nonzero return raises
`CANopenFrameParseException`. -/
def parse_can_frame (cf : CANFrame) : Except PyExc CANopenFrame :=
  match canopen_frame_parse cf with
  | Except.ok fr => Except.ok fr
  | Except.error _ => Except.error PyExc.CANopenFrameParseException

end CANopen

/-- A ctypes `c_uint32` instance: its only data attribute is `value`. -/
structure c_uint32 where
  value : Nat
deriving DecidableEq, Repr

/-- Python attribute lookup on a `c_uint32`: `value` yields the stored
integer, any other attribute name raises `AttributeError`. -/
def c_uint32.getattr (r : c_uint32) (a : String) : Except PyExc Nat :=
  if a = "value" then Except.ok r.value else Except.error (PyExc.AttributeError a)

/-- Hex digit character for `n < 16`, lowercase as Python's `%x`. -/
def hexDigitChar (n : Nat) : Char :=
  if n < 10 then Char.ofNat (48 + n) else Char.ofNat (87 + n)

/-- Python `"%.2x" % b` for a byte `b < 256`: two lowercase hex
digits. -/
def toHex2 (b : Nat) : List Char :=
  [hexDigitChar (b / 16 % 16), hexDigitChar (b % 16)]

/-- Value of a hex digit character, as accepted by Python `int(s, 16)`
(decimal digits, lowercase and uppercase letters). -/
def hexDigitVal (c : Char) : Option Nat :=
  if 48 ≤ c.toNat ∧ c.toNat ≤ 57 then some (c.toNat - 48)
  else if 97 ≤ c.toNat ∧ c.toNat ≤ 102 then some (c.toNat - 87)
  else if 65 ≤ c.toNat ∧ c.toNat ≤ 70 then some (c.toNat - 55)
  else none

/-- Python `int(s, 16)` on a plain string of hex digits; `none` is the
`ValueError` on an empty or non-hex string. -/
def pyInt16 (cs : List Char) : Option Nat :=
  if cs.isEmpty then none
  else List.foldlM (fun a c => (hexDigitVal c).map fun d => a * 16 + d) 0 cs

/-- The decoding comprehension of `SDODownloadSeg`/`SDODownloadBlock`:
`[chr(int(str_data[2*n:2*n+2], 16)) for n in range(len(str_data)/2)]`.
The slices are the consecutive 2-character chunks of `str_data` (an odd
trailing character is never read), decoded left to right, failing at
the first non-hex pair (`ValueError`, i.e. `none`). -/
def decodePairs : List Char → Option (List Nat)
  | c1 :: c2 :: rest =>
      match pyInt16 [c1, c2], decodePairs rest with
      | some b, some bs => some (b :: bs)
      | _, _ => none
  | _ => some []

namespace CANopen

/-- `CANopen.SDOUploadExp`: on a nonzero native return, errno
`EAGAIN`/`EWOULDBLOCK` raises `CANNothingToReadException` and any other
errno raises `CANopenSDOUploadException`; on a zero return the source
executes `return res.msg` on the `c_uint32` out-parameter `res`. -/
def SDOUploadExp (ret errnoV : Int) (res : c_uint32) : Except PyExc Nat :=
  if ret ≠ 0 then
    if errnoV = EAGAIN ∨ errnoV = EWOULDBLOCK then
      Except.error PyExc.CANNothingToReadException
    else Except.error PyExc.CANopenSDOUploadException
  else c_uint32.getattr res "msg"

/-- `CANopen.SDODownloadExp`: a nonzero native return raises
(`CANNothingToReadException` on errno `EAGAIN`/`EWOULDBLOCK`, else
`CANopenSDOUploadException`); a zero return returns normally. -/
def SDODownloadExp (ret errnoV : Int) : Except PyExc Unit :=
  if ret ≠ 0 then
    if errnoV = EAGAIN ∨ errnoV = EWOULDBLOCK then
      Except.error PyExc.CANNothingToReadException
    else Except.error PyExc.CANopenSDOUploadException
  else Except.ok ()

/-- `CANopen.SDOUploadSeg`: a negative native return raises
`CANopenSDOUploadException`; otherwise the result is the hex string of
`data[i]` for `i in range(ret)`, where `buf` is the contents of the
`size`-byte buffer after the native call (an index past the buffer
raises `IndexError`). -/
def SDOUploadSeg (ret : Int) (buf : List Nat) : Except PyExc (List Char) :=
  if ret < 0 then Except.error PyExc.CANopenSDOUploadException
  else
    match (List.range ret.toNat).mapM buf.get? with
    | none => Except.error PyExc.IndexError
    | some bs => Except.ok (bs.map toHex2).flatten

/-- `CANopen.SDOUploadBlock`: a nonzero native return raises
`CANopenSDOUploadException`; otherwise the result is the hex string of
the whole `size`-byte buffer (contents `buf`) with its final two
characters removed by the `[0:-2]` slice. -/
def SDOUploadBlock (ret : Int) (buf : List Nat) : Except PyExc (List Char) :=
  if ret ≠ 0 then Except.error PyExc.CANopenSDOUploadException
  else
    let hs := (buf.map toHex2).flatten
    Except.ok (hs.take (hs.length - 2))

/-- The part of `CANopen.SDODownloadSeg` up to the native call: decode
`str_data` (failure is `ValueError`), then evaluate `ct.c_uint16(n)`
with `n` the leaked comprehension variable, i.e. `len(str_data)/2 - 1`
(`NameError` when the comprehension was empty).  Returns the decoded
buffer and the 16-bit size argument passed to the native call. -/
def SDODownloadSeg_args (sd : List Char) : Except PyExc (List Nat × Nat) :=
  match decodePairs sd with
  | none => Except.error PyExc.ValueError
  | some bs =>
      if sd.length / 2 = 0 then Except.error (PyExc.NameError "n")
      else Except.ok (bs, (sd.length / 2 - 1) % 65536)

/-- `CANopen.SDODownloadSeg`: after `SDODownloadSeg_args`, a nonzero
native return raises `CANopenSDOUploadException`, a zero return returns
normally. -/
def SDODownloadSeg (sd : List Char) (ret : Int) : Except PyExc Unit :=
  match SDODownloadSeg_args sd with
  | Except.error e => Except.error e
  | Except.ok _ =>
      if ret ≠ 0 then Except.error PyExc.CANopenSDOUploadException
      else Except.ok ()

/-- The part of `CANopen.SDODownloadBlock` up to the native call: like
`SDODownloadSeg_args` but the size argument is `ct.c_uint16(n + 1)`,
i.e. `len(str_data)/2` masked to 16 bits. -/
def SDODownloadBlock_args (sd : List Char) : Except PyExc (List Nat × Nat) :=
  match decodePairs sd with
  | none => Except.error PyExc.ValueError
  | some bs =>
      if sd.length / 2 = 0 then Except.error (PyExc.NameError "n")
      else Except.ok (bs, (sd.length / 2 - 1 + 1) % 65536)

/-- `CANopen.SDODownloadBlock`: after `SDODownloadBlock_args`, a
nonzero native return raises `CANopenSDOUploadException`, a zero return
returns normally. -/
def SDODownloadBlock (sd : List Char) (ret : Int) : Except PyExc Unit :=
  match SDODownloadBlock_args sd with
  | Except.error e => Except.error e
  | Except.ok _ =>
      if ret ≠ 0 then Except.error PyExc.CANopenSDOUploadException
      else Except.ok ()

end CANopen

/-- A concrete CAN frame used to instantiate theorems about reads. -/
def frame0 : CANFrame := ⟨0, 0, List.replicate 8 0⟩

/-- A concrete valid CANopen frame: expedited initiate download
(specifier `0x23`, 4 payload bytes), node 5, function code `0xC`. -/
def frameExp : CANopenFrame :=
  ⟨0, 12, TransferType.Expedited, 5, [35, 0, 32, 1, 170, 187, 204, 221], 4⟩

/-- The 131072-character hex string of all zeros (decodes to 65536
bytes, one past the largest `c_uint16` value). -/
def bigHexC3 : List Char := List.replicate 131072 '0'

/-- The 131074-character hex string of all zeros (decodes to 65537
bytes). -/
def bigHexC4 : List Char := List.replicate 131074 '0'

deriving instance DecidableEq for Except

/-- C1: on a successful native expedited upload (return 0), the wrapper
executes `return res.msg`; a `c_uint32` has no attribute `msg` (the
stored value is `res.value`), so the call raises `AttributeError`
instead of returning the 32-bit payload `0x12345678` that the native
library stored in the out-parameter. -/
theorem upload_exp_success_raises_attribute_error :
    CANopen.SDOUploadExp 0 0 ⟨305419896⟩ =
      Except.error (PyExc.AttributeError "msg") ∧
    c_uint32.getattr ⟨305419896⟩ "value" = Except.ok 305419896 :=
  ⟨rfl, rfl⟩

/-- C2: on a successful 4-byte block upload with buffer contents
`de ad be ef`, the `[0:-2]` slice drops the final two hex characters,
so the wrapper returns the 6-character string `deadbe` — not the
`2 * size = 8` characters the claim states; the last transferred byte
is lost. -/
theorem upload_block_drops_last_byte :
    CANopen.SDOUploadBlock 0 [222, 173, 190, 239] =
      Except.ok ['d', 'e', 'a', 'd', 'b', 'e'] ∧
    (['d', 'e', 'a', 'd', 'b', 'e'] : List Char).length ≠ 2 * 4 :=
  ⟨rfl, by decide⟩

/-- C5: the download and segmented-upload facades do return normally
exactly when the native call succeeds and raise on failure, but the
expedited upload facade violates the claim: even when the native call
reports success (return 0) it raises `AttributeError` (`res.msg` on a
`c_uint32`) instead of returning normally. -/
theorem sdo_facade_error_iff_violated :
    CANopen.SDODownloadExp 0 0 = Except.ok () ∧
    CANopen.SDOUploadSeg 2 [1, 2] = Except.ok ['0', '1', '0', '2'] ∧
    CANopen.SDODownloadBlock ['0', 'a'] 0 = Except.ok () ∧
    CANopen.SDODownloadSeg ['0', 'a'] 3 =
      Except.error PyExc.CANopenSDOUploadException ∧
    CANopen.SDOUploadBlock 1 [] =
      Except.error PyExc.CANopenSDOUploadException ∧
    CANopen.SDOUploadExp 0 0 ⟨7⟩ = Except.error (PyExc.AttributeError "msg") :=
  ⟨rfl, rfl, rfl, rfl, rfl, rfl⟩

/-- C6: on a connected socket, when the native read does not return a
full 16-byte frame, errno `EAGAIN`/`EWOULDBLOCK` yields
`CANNothingToReadException` and any other errno yields
`CANframeReadException`, and the two outcomes are distinct. -/
theorem read_can_frame_distinguishes_would_block (sock : Option Int)
    (hs : truthy sock = true) (readRet errnoV : Int) (fr : CANFrame)
    (hr : readRet ≠ 16) :
    ((errnoV = EAGAIN ∨ errnoV = EWOULDBLOCK) →
      CANopen.read_can_frame sock readRet errnoV fr =
        (Except.error PyExc.CANNothingToReadException, true)) ∧
    (errnoV ≠ EAGAIN → errnoV ≠ EWOULDBLOCK →
      CANopen.read_can_frame sock readRet errnoV fr =
        (Except.error PyExc.CANframeReadException, true)) ∧
    PyExc.CANNothingToReadException ≠ PyExc.CANframeReadException := by
  refine ⟨fun h => ?_, fun h1 h2 => ?_, by decide⟩
  · simp [CANopen.read_can_frame, hs, hr, h]
  · simp [CANopen.read_can_frame, hs, hr, h1, h2]

/-- Witness for C6: a connected socket, a read returning -1 and errno
11 (`EAGAIN`) produce the nothing-to-read outcome. -/
theorem read_can_frame_distinguishes_would_block_witness :
    CANopen.read_can_frame (some 3) (-1) 11 frame0 =
      (Except.error PyExc.CANNothingToReadException, true) :=
  (read_can_frame_distinguishes_would_block (some 3) (by decide) (-1) 11 frame0
    (by decide)).1 (Or.inl rfl)

/-- C10: with a falsy socket handle, `read_can_frame` raises
`CANSocketNotConnectedException` without performing the native read,
`close` performs no native close and leaves the handle unchanged, and
`close` is idempotent: a second `close` after any `close` performs no
native call. -/
theorem disconnected_read_and_close (sock : Option Int)
    (h : truthy sock = false) (readRet errnoV : Int) (fr : CANFrame) :
    CANopen.read_can_frame sock readRet errnoV fr =
      (Except.error PyExc.CANSocketNotConnectedException, false) ∧
    CANopen.close sock = (sock, false) ∧
    (∀ s2, CANopen.close (CANopen.close s2).1 = ((CANopen.close s2).1, false)) := by
  refine ⟨?_, ?_, fun s2 => ?_⟩
  · simp [CANopen.read_can_frame, h]
  · simp [CANopen.close, h]
  · by_cases h2 : truthy s2 = true
    · have hn : truthy none = false := rfl
      simp [CANopen.close, h2, hn]
    · simp [CANopen.close, h2]

/-- Witness for C10: a closed instance (`sock = None`). -/
theorem disconnected_read_and_close_witness :
    CANopen.read_can_frame none 0 0 frame0 =
      (Except.error PyExc.CANSocketNotConnectedException, false) :=
  (disconnected_read_and_close none (by decide) 0 0 frame0).1

/-- Counterexample to C9: a failing `SDODownloadExp` (native return 1)
with errno 11 (`EAGAIN`) raises `CANNothingToReadException`, not the
`CANopenSDOUploadException` the claim says every failing download
raises. -/
theorem download_exp_eagain_counterexample :
    CANopen.SDODownloadExp 1 11 = Except.error PyExc.CANNothingToReadException ∧
    PyExc.CANNothingToReadException ≠ PyExc.CANopenSDOUploadException :=
  ⟨rfl, by decide⟩

/-- C9 (amended): a failing download raises the upload-classified
`CANopenSDOUploadException`, except `SDODownloadExp` under errno
`EAGAIN`/`EWOULDBLOCK`, which raises `CANNothingToReadException`; and
no modelled operation ever raises `CANopenSDODownloadException`. -/
theorem downloads_raise_upload_typed_errors :
    (∀ ret errnoV : Int, ret ≠ 0 → errnoV ≠ EAGAIN → errnoV ≠ EWOULDBLOCK →
      CANopen.SDODownloadExp ret errnoV =
        Except.error PyExc.CANopenSDOUploadException) ∧
    (∀ ret errnoV : Int, ret ≠ 0 → (errnoV = EAGAIN ∨ errnoV = EWOULDBLOCK) →
      CANopen.SDODownloadExp ret errnoV =
        Except.error PyExc.CANNothingToReadException) ∧
    (∀ sd r ret, CANopen.SDODownloadSeg_args sd = Except.ok r → ret ≠ 0 →
      CANopen.SDODownloadSeg sd ret =
        Except.error PyExc.CANopenSDOUploadException) ∧
    (∀ sd r ret, CANopen.SDODownloadBlock_args sd = Except.ok r → ret ≠ 0 →
      CANopen.SDODownloadBlock sd ret =
        Except.error PyExc.CANopenSDOUploadException) ∧
    (∀ ret errnoV res, CANopen.SDOUploadExp ret errnoV res ≠
      Except.error PyExc.CANopenSDODownloadException) ∧
    (∀ ret errnoV, CANopen.SDODownloadExp ret errnoV ≠
      Except.error PyExc.CANopenSDODownloadException) ∧
    (∀ ret buf, CANopen.SDOUploadSeg ret buf ≠
      Except.error PyExc.CANopenSDODownloadException) ∧
    (∀ ret buf, CANopen.SDOUploadBlock ret buf ≠
      Except.error PyExc.CANopenSDODownloadException) ∧
    (∀ sd ret, CANopen.SDODownloadSeg sd ret ≠
      Except.error PyExc.CANopenSDODownloadException) ∧
    (∀ sd ret, CANopen.SDODownloadBlock sd ret ≠
      Except.error PyExc.CANopenSDODownloadException) ∧
    (∀ sock readRet errnoV fr,
      (CANopen.read_can_frame sock readRet errnoV fr).1 ≠
        Except.error PyExc.CANopenSDODownloadException) ∧
    (∀ cf, CANopen.parse_can_frame cf ≠
      Except.error PyExc.CANopenSDODownloadException) := by
  refine ⟨?_, ?_, ?_, ?_, ?_, ?_, ?_, ?_, ?_, ?_, ?_, ?_⟩
  · intro ret errnoV h0 h1 h2
    simp [CANopen.SDODownloadExp, h0, h1, h2]
  · intro ret errnoV h0 h1
    simp [CANopen.SDODownloadExp, h0, h1]
  · intro sd r ret h0 h1
    simp [CANopen.SDODownloadSeg, h0, h1]
  · intro sd r ret h0 h1
    simp [CANopen.SDODownloadBlock, h0, h1]
  · intro ret errnoV res
    unfold CANopen.SDOUploadExp c_uint32.getattr
    split_ifs <;> simp
  · intro ret errnoV
    unfold CANopen.SDODownloadExp
    split_ifs <;> simp
  · intro ret buf
    unfold CANopen.SDOUploadSeg
    split_ifs with h0
    · simp
    · cases hm : (List.range ret.toNat).mapM buf.get? <;> simp [hm]
  · intro ret buf
    unfold CANopen.SDOUploadBlock
    split_ifs <;> simp
  · intro sd ret
    unfold CANopen.SDODownloadSeg CANopen.SDODownloadSeg_args
    cases hd : decodePairs sd <;> simp [hd]
    split_ifs <;> simp
  · intro sd ret
    unfold CANopen.SDODownloadBlock CANopen.SDODownloadBlock_args
    cases hd : decodePairs sd <;> simp [hd]
    split_ifs <;> simp
  · intro sock readRet errnoV fr
    unfold CANopen.read_can_frame
    split_ifs <;> simp
  · intro cf
    unfold CANopen.parse_can_frame
    cases h : canopen_frame_parse cf <;> simp

/-- Witness for C9 (amended): a failing download with a non-would-block
errno raises the upload-classified exception. -/
theorem downloads_raise_upload_typed_errors_witness :
    CANopen.SDODownloadExp 1 9 = Except.error PyExc.CANopenSDOUploadException :=
  downloads_raise_upload_typed_errors.1 1 9 (by decide) (by decide) (by decide)

/-- C7: `parse_can_frame` raises `CANopenFrameParseException` on every
frame the codec rejects — in particular every frame with `dlc ≠ 8` —
and returns a decoded frame exactly when the native parse succeeds. -/
theorem parse_can_frame_rejects_malformed (cf : CANFrame) :
    (cf.can_dlc ≠ 8 →
      CANopen.parse_can_frame cf =
        Except.error PyExc.CANopenFrameParseException) ∧
    (∀ fr, CANopen.parse_can_frame cf = Except.ok fr ↔
      canopen_frame_parse cf = Except.ok fr) := by
  constructor
  · intro h
    simp [CANopen.parse_can_frame, canopen_frame_parse, h]
  · intro fr
    unfold CANopen.parse_can_frame
    cases h : canopen_frame_parse cf <;> simp

/-- Witness for C7: a frame with `dlc = 5` is rejected. -/
theorem parse_can_frame_rejects_malformed_witness :
    CANopen.parse_can_frame ⟨1413, 5, List.replicate 8 0⟩ =
      Except.error PyExc.CANopenFrameParseException :=
  (parse_can_frame_rejects_malformed ⟨1413, 5, List.replicate 8 0⟩).1 (by decide)

/-- C8: decoding the encoding of a valid CANopen frame yields the frame
again: the arbitration-id fields are recovered exactly (the node id
fits 7 bits, the function code 4 bits, RTR one bit), the command
specifier re-classifies to the stored transfer type and payload length,
and the zero padding the encoder emits reproduces the frame's data. -/
theorem canopen_codec_round_trip (f : CANopenFrame)
    (h : validCANopenFrame f) :
    canopen_frame_parse (canopen_frame_pack f) = Except.ok f := by
  obtain ⟨r, fc, tt, nid, d, dl⟩ := f
  obtain ⟨h1, h2, h3, h4, h5, h6, h7⟩ := h
  dsimp only at h1 h2 h3 h4 h5 h6 h7
  unfold canopen_frame_pack
  dsimp only
  rw [← h7]
  unfold canopen_frame_parse
  dsimp only
  rw [h6]
  have hp : (2 : Nat) ^ 30 = 1073741824 := by norm_num
  rw [if_neg (by norm_num), hp]
  simp only [Except.ok.injEq, CANopenFrame.mk.injEq]
  refine ⟨by omega, by omega, trivial, by omega, trivial, trivial⟩

/-- Witness for C8: the concrete expedited frame `frameExp` survives
the round trip. -/
theorem canopen_codec_round_trip_witness :
    canopen_frame_parse (canopen_frame_pack frameExp) = Except.ok frameExp :=
  canopen_codec_round_trip frameExp (by decide)

/-- Decoding a string of `2 * k` zero characters yields `k` zero
bytes. -/
theorem decodePairs_replicate_zero :
    ∀ k, decodePairs (List.replicate (2 * k) '0') = some (List.replicate k 0)
  | 0 => rfl
  | k + 1 => by
      have h : 2 * (k + 1) = 2 * k + 1 + 1 := by ring
      rw [h, List.replicate_succ, List.replicate_succ]
      have ih := decodePairs_replicate_zero k
      simp [decodePairs, ih, show pyInt16 ['0', '0'] = some 0 from rfl,
        List.replicate_succ]

/-- Counterexample to C3: for the 131072-character hex string of zeros
(65536 decoded bytes), the `c_uint16` marshalling of the size argument
wraps to 0, not the 65536 bytes the claim states. -/
theorem download_block_size_arg_counterexample :
    CANopen.SDODownloadBlock_args bigHexC3 =
      Except.ok (List.replicate 65536 0, 0) ∧
    bigHexC3.length / 2 = 65536 ∧ (0 : Nat) ≠ 65536 := by
  have hd : decodePairs bigHexC3 = some (List.replicate 65536 0) := by
    have h2 : bigHexC3 = List.replicate (2 * 65536) '0' := by
      rw [bigHexC3]
    rw [h2]
    exact decodePairs_replicate_zero 65536
  have hlen : bigHexC3.length = 131072 := by
    rw [bigHexC3]
    exact List.length_replicate 131072 '0'
  refine ⟨?_, by rw [hlen], by norm_num⟩
  rw [CANopen.SDODownloadBlock_args, hd]
  show (if bigHexC3.length / 2 = 0 then Except.error (PyExc.NameError "n")
    else Except.ok (List.replicate 65536 0,
      (bigHexC3.length / 2 - 1 + 1) % 65536)) =
    Except.ok (List.replicate 65536 0, 0)
  rw [hlen]
  norm_num

/-- C3 (amended): for a non-empty even-length hexadecimal `str_data`,
`SDODownloadBlock` passes `len(str_data)/2 % 2^16` as the native size
argument — the exact hex-decoded byte count reduced by the `c_uint16`
marshalling, hence exactly `len(str_data)/2` whenever that count is
below 65536 — together with the decoded bytes. -/
theorem download_block_size_arg (sd : List Char) (bs : List Nat)
    (hd : decodePairs sd = some bs) (hne : sd ≠ [])
    (hev : sd.length % 2 = 0) :
    CANopen.SDODownloadBlock_args sd =
      Except.ok (bs, sd.length / 2 % 65536) := by
  have hl : sd.length ≠ 0 := fun hh => hne (List.length_eq_zero.mp hh)
  have hm : sd.length / 2 ≠ 0 := by omega
  rw [CANopen.SDODownloadBlock_args, hd]
  show (if sd.length / 2 = 0 then Except.error (PyExc.NameError "n")
    else Except.ok (bs, (sd.length / 2 - 1 + 1) % 65536)) =
    Except.ok (bs, sd.length / 2 % 65536)
  rw [if_neg hm]
  have ha : sd.length / 2 - 1 + 1 = sd.length / 2 := by omega
  rw [ha]

/-- Witness for C3 (amended): `"0a1b"` decodes to bytes `[10, 27]` and
the native call receives size 2. -/
theorem download_block_size_arg_witness :
    CANopen.SDODownloadBlock_args ['0', 'a', '1', 'b'] =
      Except.ok ([10, 27], 2) :=
  download_block_size_arg ['0', 'a', '1', 'b'] [10, 27] (by decide)
    (by decide) (by decide)

/-- Counterexample to C4: for the 131074-character hex string of zeros
(k = 65537 decoded bytes), the `c_uint16` marshalling of `n = k - 1`
wraps to 0, not the `k - 1 = 65536` the claim states. -/
theorem download_seg_size_arg_counterexample :
    CANopen.SDODownloadSeg_args bigHexC4 =
      Except.ok (List.replicate 65537 0, 0) ∧
    bigHexC4.length / 2 - 1 = 65536 ∧ (0 : Nat) ≠ 65536 := by
  have hd : decodePairs bigHexC4 = some (List.replicate 65537 0) := by
    have h2 : bigHexC4 = List.replicate (2 * 65537) '0' := by
      rw [bigHexC4]
    rw [h2]
    exact decodePairs_replicate_zero 65537
  have hlen : bigHexC4.length = 131074 := by
    rw [bigHexC4]
    exact List.length_replicate 131074 '0'
  refine ⟨?_, by rw [hlen], by norm_num⟩
  rw [CANopen.SDODownloadSeg_args, hd]
  show (if bigHexC4.length / 2 = 0 then Except.error (PyExc.NameError "n")
    else Except.ok (List.replicate 65537 0,
      (bigHexC4.length / 2 - 1) % 65536)) =
    Except.ok (List.replicate 65537 0, 0)
  rw [hlen]
  norm_num

/-- C4 (amended): for a non-empty even-length hexadecimal `str_data`
with `k = len(str_data)/2` decoded bytes, `SDODownloadSeg` passes the
loop-exhausted comprehension variable `n` through `c_uint16`, i.e.
`(k - 1) % 2^16` — exactly `k - 1` whenever `k - 1` is below 65536 —
as the native size argument. -/
theorem download_seg_size_arg (sd : List Char) (bs : List Nat)
    (hd : decodePairs sd = some bs) (hne : sd ≠ [])
    (hev : sd.length % 2 = 0) :
    CANopen.SDODownloadSeg_args sd =
      Except.ok (bs, (sd.length / 2 - 1) % 65536) := by
  have hl : sd.length ≠ 0 := fun hh => hne (List.length_eq_zero.mp hh)
  have hm : sd.length / 2 ≠ 0 := by omega
  rw [CANopen.SDODownloadSeg_args, hd]
  show (if sd.length / 2 = 0 then Except.error (PyExc.NameError "n")
    else Except.ok (bs, (sd.length / 2 - 1) % 65536)) =
    Except.ok (bs, (sd.length / 2 - 1) % 65536)
  rw [if_neg hm]

/-- Witness for C4 (amended): `"0a1b"` has k = 2 decoded bytes and the
native call receives size 1. -/
theorem download_seg_size_arg_witness :
    CANopen.SDODownloadSeg_args ['0', 'a', '1', 'b'] =
      Except.ok ([10, 27], 1) :=
  download_seg_size_arg ['0', 'a', '1', 'b'] [10, 27] (by decide)
    (by decide) (by decide)
